import Mathlib

/-!
Verification development for the incident-remediation orchestrator
(`finaleditionjan14.py`, `ver1.py`, `ver2.py`, `ver4.py`, `ver5.py`).

The Python handlers are shallowly embedded: module-level mutable state
(the `FIX_STORE` dictionary) becomes an explicit association-list state
threaded through the handler functions, HTTP requests become the values
the handlers read from them, and each outbound side effect (the Teams
card posted, the `runCommand`/SSH script sent) is recorded as a field of
the handler's outcome.  External calls whose results the code merely
consumes (the Azure `runCommand` HTTP status, the SSH transport) are
parameters of the handler.
-/

namespace Spec2Proof

/-- String-append associativity, restated for use as a local simp lemma. -/
theorem strAppendAssoc (a b c : String) : a ++ b ++ c = a ++ (b ++ c) :=
  String.append_assoc a b c

/-! ## `finaleditionjan14.py`: the in-memory fix store

`FIX_STORE: dict[str, list[str]]` is embedded as an association list from
fix ids to command lists; `dict` membership, indexing and `pop` become
`find` and `pop` below (keys are unique in a Python dict, so removing
every binding of the key is the same as removing the one binding). -/

/-- The `FIX_STORE` state: fix_id -> list of shell commands. -/
abbrev FixStore := List (String × List String)

/-- `fix_id in FIX_STORE` / `FIX_STORE[fix_id]`: first binding of the key. -/
def FixStore.find : FixStore → String → Option (List String)
  | [], _ => none
  | (k, v) :: rest, id => if k = id then some v else FixStore.find rest id

/-- `FIX_STORE.pop(fix_id)`: the store with the key's binding removed. -/
def FixStore.pop : FixStore → String → FixStore
  | [], _ => []
  | (k, v) :: rest, id =>
      if k = id then FixStore.pop rest id else (k, v) :: FixStore.pop rest id

/-! ## `alert_ingest` -/

/-- The fields `alert_ingest` reads from the request JSON.  `Option`
models a missing key (`dict.get` returning `None`); Python truthiness of
the present values is checked by `truthyOpt` / `truthyCmds` below. -/
structure AlertPayload where
  alertname : Option String
  instanceName : String
  summary : Option String
  explanation : Option String
  commands : Option (List String)
deriving DecidableEq

/-- Python truthiness of an optional string (`None` and `""` are falsy). -/
def truthyOpt : Option String → Bool
  | none => false
  | some s => s != ""

/-- Python truthiness of the optional command list (`None` and `[]` falsy). -/
def truthyCmds : Option (List String) → Bool
  | none => false
  | some [] => false
  | some (_ :: _) => true

/-- The HTTP response of `alert_ingest`. -/
inductive IngestResult where
  /-- A 400 response with the given body. -/
  | badRequest (msg : String)
  /-- The 200 JSON response `{"sent": true, "fix_id": fixId}`. -/
  | ok (fixId : String)
deriving DecidableEq

/-- `{i}. {cmd}` lines of `format_commands`, numbering from `i`. -/
def numberFrom : Nat → List String → List String
  | _, [] => []
  | i, c :: cs => (toString i ++ ". " ++ c) :: numberFrom (i + 1) cs

/-- `"\n".join(lines)`. -/
def joinWith (sep : String) : List String → String
  | [] => ""
  | [a] => a
  | a :: b :: rest => a ++ (sep ++ joinWith sep (b :: rest))

/-- `format_commands` of `finaleditionjan14.py`: a ```` ```bash ```` fenced
block with the commands numbered from 1. -/
def format_commands (cmds : List String) : String :=
  joinWith "\n" ("```bash" :: (numberFrom 1 cmds ++ ["```"]))

/-- The `text` of the card section sent by `alert_ingest` (source lines
120-124). -/
def alert_card_text (summary explanation : String) (cmds : List String) : String :=
  "**🤖 AI Summary**\n" ++ summary ++ "\n\n" ++
    "**Explanation**\n" ++ explanation ++ "\n\n" ++
    "**Proposed Fix**\n" ++ format_commands cmds

/-- Everything observable about one `alert_ingest` invocation: the HTTP
response, the `FIX_STORE` afterwards, and the section text of the Teams
card sent (`none` when the request was rejected before `send_teams`). -/
structure IngestOutcome where
  response : IngestResult
  store : FixStore
  card : Option String
deriving DecidableEq

/-- `alert_ingest` of `finaleditionjan14.py`.  `newId` is the value of
`str(uuid4())` drawn during the call; the store is the `FIX_STORE` state
at entry. -/
def alert_ingest (p : AlertPayload) (newId : String) (store : FixStore) :
    IngestOutcome :=
  if !(truthyOpt p.alertname && truthyOpt p.summary &&
        truthyOpt p.explanation && truthyCmds p.commands) then
    ⟨IngestResult.badRequest "Missing required fields", store, none⟩
  else
    match p.commands with
    | none => ⟨IngestResult.badRequest "Commands must be a non-empty list", store, none⟩
    | some cmds =>
      if cmds = [] then
        ⟨IngestResult.badRequest "Commands must be a non-empty list", store, none⟩
      else
        ⟨IngestResult.ok newId, (newId, cmds) :: store,
          some (alert_card_text (p.summary.getD "") (p.explanation.getD "") cmds)⟩

/-! ## `teams_action` -/

/-- Outcome of the `requests.post` to the Azure `runCommand` endpoint:
either an HTTP response with a status code, or an exception (also covers
a credential failure), which the handler's outer `except` catches. -/
inductive ExecCall where
  | status (code : Nat)
  | raised (msg : String)
deriving DecidableEq

/-- The HTTP response of `teams_action`. -/
inductive ActionResult where
  /-- `action == "reject"`: the "Fix rejected" page. -/
  | rejected
  /-- any other `action` than `run_fix`: 400 "Invalid action". -/
  | invalidAction
  /-- missing/empty/unknown `fix_id`: 400 "Fix expired or not found". -/
  | notFound
  /-- `runCommand` returned a status outside {200, 202}: "Fix execution failed". -/
  | execFailed
  /-- `runCommand` returned 200/202: "Fix executed successfully". -/
  | execSuccess
  /-- the outer `except` path: 500 error page carrying `str(e)`. -/
  | serverError (msg : String)
deriving DecidableEq

/-- Everything observable about one `teams_action` invocation: the HTTP
response, the `FIX_STORE` afterwards, and the `script` of the
`runCommand` payload when the handler reached the execution stage
(`none` when nothing was sent to the VM). -/
structure ActionOutcome where
  result : ActionResult
  store : FixStore
  script : Option (List String)
deriving DecidableEq

/-- `teams_action` of `finaleditionjan14.py`.  `action` and `fixId` are
the query parameters (`req.params.get`), `exec` the outcome of the
`runCommand` POST, `store` the `FIX_STORE` state at entry. -/
def teams_action (action : Option String) (fixId : Option String)
    (exec : ExecCall) (store : FixStore) : ActionOutcome :=
  if action = some "reject" then
    ⟨ActionResult.rejected, store, none⟩
  else if ¬ action = some "run_fix" then
    ⟨ActionResult.invalidAction, store, none⟩
  else
    match fixId with
    | none => ⟨ActionResult.notFound, store, none⟩
    | some id =>
      if id = "" then ⟨ActionResult.notFound, store, none⟩
      else
        match FixStore.find store id with
        | none => ⟨ActionResult.notFound, store, none⟩
        | some cmds =>
          match exec with
          | ExecCall.raised m =>
              ⟨ActionResult.serverError m, FixStore.pop store id, some cmds⟩
          | ExecCall.status code =>
              if code = 200 ∨ code = 202 then
                ⟨ActionResult.execSuccess, FixStore.pop store id, some cmds⟩
              else
                ⟨ActionResult.execFailed, FixStore.pop store id, some cmds⟩

/-! ## `ver4.py`: sudo-filtered extraction and the approval callback

`ai_solution.splitlines()` is embedded as splitting on `'\n'` (the only
line separator the surrounding code produces); `line.strip()` as
dropping whitespace on both ends; `str.startswith` structurally on the
character lists. -/

/-- Helper for `splitLines`: accumulates the current line in reverse. -/
def splitLinesAux : List Char → List Char → List String
  | [], [] => []
  | [], acc => [String.mk acc.reverse]
  | '\n' :: rest, acc => String.mk acc.reverse :: splitLinesAux rest []
  | c :: rest, acc => splitLinesAux rest (c :: acc)

/-- `text.splitlines()`: no empty tail element for a trailing newline. -/
def splitLines (s : String) : List String :=
  splitLinesAux s.data []

/-- `line.strip()`: drop leading and trailing whitespace. -/
def pyStrip (s : String) : String :=
  String.mk (((s.data.dropWhile Char.isWhitespace).reverse.dropWhile
    Char.isWhitespace).reverse)

/-- Structural string matching used to embed `str.startswith`. -/
def leadsWith : List Char → List Char → Bool
  | [], _ => true
  | _ :: _, [] => false
  | p :: ps, c :: cs => p == c && leadsWith ps cs

/-- `s.startswith(pat)`. -/
def pyStartsWith (pat s : String) : Bool :=
  leadsWith pat.data s.data

/-- `ver4.py` line 149: the allow-list extraction
`[line for line in ai_solution.splitlines() if line.strip().startswith("sudo")]`. -/
def extractSudoCommands (text : String) : List String :=
  (splitLines text).filter (fun line => pyStartsWith "sudo" (pyStrip line))

/-- The JSON body `approval_callback` of `ver4.py` reads.  A `decision`
field is carried for modelling purposes only: the handler never reads
it (the source accesses only `data["incident"]` and
`data["ai_solution"]`). -/
structure Ver4CallbackBody where
  incident : String
  ai_solution : String
  decision : Option String
deriving DecidableEq

/-- Everything observable about one `ver4.py` `approval_callback`
invocation: the commands run on the VM over SSH, the Teams card sent,
and the HTTP response body. -/
structure Ver4Outcome where
  executed : List String
  notifiedTitle : String
  notifiedText : String
  response : String
deriving DecidableEq

/-- `approval_callback` of `ver4.py` (lines 144-158): filters the sudo
lines out of `ai_solution`, runs them on the VM, sends the executed
card, answers "approved and executed" — unconditionally. -/
def ver4_approval_callback (body : Ver4CallbackBody) : Ver4Outcome :=
  let commands := extractSudoCommands body.ai_solution
  { executed := commands
  , notifiedTitle := "✅ Approved & Executed " ++ body.incident
  , notifiedText := "Commands executed:\n" ++ joinWith "\n" commands
  , response := "approved and executed" }

/-- One entry of a Teams card's `potentialAction` array as built in
`ver4.py`. -/
structure TeamsCardAction where
  name : String
  target : String
  body : List (String × String)
deriving DecidableEq

/-- The `potentialAction` list built by `alert_receiver` of `ver4.py`
(lines 118-130) in the approval branch: a single `HttpPOST` action. -/
def ver4_approval_actions (callbackBase incident description aiSolution : String) :
    List TeamsCardAction :=
  [{ name := "Approve Fix"
   , target := callbackBase ++ "/api/approval_callback"
   , body := [("incident", incident), ("description", description),
              ("ai_solution", aiSolution)] }]

/-! ## `ver2.py`: SSH execution with error capture, and the callback -/

/-- One element of the result list built by `run_remote_commands`. -/
inductive ResultEntry where
  /-- `{"cmd": c, "stdout": o, "stderr": e}` -/
  | ok (cmd stdout stderr : String)
  /-- `{"error": msg}` — the single entry returned when SSH fails. -/
  | err (msg : String)
deriving DecidableEq

/-- The SSH transport as `run_remote_commands` observes it: either a
working connection giving per-command stdout/stderr, or any exception
along the way (missing credentials, connect failure, ...). -/
inductive SshEnv where
  | ok (io : String → String × String)
  | fail (err : String)

/-- `run_remote_commands` of `ver2.py`: per-command results on success,
`[{"error": str(e)}]` when an exception is caught. -/
def run_remote_commands (env : SshEnv) (cmds : List String) : List ResultEntry :=
  match env with
  | SshEnv.ok io => cmds.map (fun c => ResultEntry.ok c (io c).1 (io c).2)
  | SshEnv.fail e => [ResultEntry.err e]

/-- Rendering of one result entry inside the `json.dumps` block of the
report message. -/
def renderEntry : ResultEntry → String
  | ResultEntry.ok c o e =>
      "\x7b\"cmd\": \"" ++ c ++ "\", \"stdout\": \"" ++ o ++
        "\", \"stderr\": \"" ++ e ++ "\"\x7d"
  | ResultEntry.err m => "\x7b\"error\": \"" ++ m ++ "\"\x7d"

/-- The Teams message `ver2.py`'s callback posts after executing an SOP:
`f"🛠 Executed SOP for {incident}:\n```json\n{json.dumps(results)}\n```"`. -/
def sopExecMsg (incident : String) (results : List ResultEntry) : String :=
  "🛠 Executed SOP for " ++ incident ++ ":\n```json\n" ++
    joinWith ",\n" (results.map renderEntry) ++ "\n```"

/-- The Teams message posted when no SOP was found: the AI suggestion. -/
def aiSuggestMsg (incident suggestion : String) : String :=
  "🤖 AI Suggestion for " ++ incident ++ ":\n" ++ suggestion

/-- Everything observable about one `ver2.py` `approval_callback`
invocation: the texts posted to the Teams webhook and the HTTP
response. -/
structure Ver2Outcome where
  teamsPosts : List String
  response : String

/-- `approval_callback` of `ver2.py` (lines 127-144).  `sopFound` and
`sopCmds` are the outcome of the `lookup_sop` call, `env` the SSH
transport, `aiText` the advisor completion used in the miss branch. -/
def ver2_approval_callback (incident description : String) (sopFound : Bool)
    (sopCmds : List String) (env : SshEnv) (aiText : String) : Ver2Outcome :=
  if sopFound then
    { teamsPosts := [sopExecMsg incident (run_remote_commands env sopCmds)]
    , response := "processed" }
  else
    { teamsPosts := [aiSuggestMsg incident aiText]
    , response := "processed" }

/-! ## Helper lemmas -/

/-- After `FIX_STORE.pop(fix_id)` the id is no longer in the store. -/
theorem find_pop_self (s : FixStore) (id : String) :
    FixStore.find (FixStore.pop s id) id = none := by
  induction s with
  | nil => rfl
  | cons p rest ih =>
    obtain ⟨k, v⟩ := p
    by_cases h : k = id <;> simp [FixStore.pop, FixStore.find, h, ih]

/-- `teams_action` on `run_fix` with a stored id: the entry is popped and
its commands become the `runCommand` script. -/
theorem teams_action_run_fix_found (s : FixStore) (id : String) (cmds : List String)
    (e : ExecCall) (hid : ¬ id = "") (h : FixStore.find s id = some cmds) :
    (teams_action (some "run_fix") (some id) e s).store = FixStore.pop s id ∧
    (teams_action (some "run_fix") (some id) e s).script = some cmds := by
  cases e with
  | raised m => simp [teams_action, hid, h]
  | status code =>
    by_cases hc : code = 200 ∨ code = 202 <;> simp [teams_action, hid, h, hc]

/-- `teams_action` on `run_fix` with an id not in the store: 400
"Fix expired or not found", state untouched, nothing executed. -/
theorem teams_action_run_fix_missing (s : FixStore) (id : String) (e : ExecCall)
    (h : FixStore.find s id = none) :
    teams_action (some "run_fix") (some id) e s =
      ⟨ActionResult.notFound, s, none⟩ := by
  by_cases hid : id = "" <;> simp [teams_action, hid, h]

/-- `teams_action` on a stored id with an HTTP status from `runCommand`
answers with the success page or the failure page. -/
theorem teams_action_status_result (s : FixStore) (id : String) (cmds : List String)
    (code : Nat) (hid : ¬ id = "") (h : FixStore.find s id = some cmds) :
    (teams_action (some "run_fix") (some id) (ExecCall.status code) s).result =
        ActionResult.execSuccess ∨
      (teams_action (some "run_fix") (some id) (ExecCall.status code) s).result =
        ActionResult.execFailed := by
  by_cases hc : code = 200 ∨ code = 202
  · left; simp [teams_action, hid, h, hc]
  · right; simp [teams_action, hid, h, hc]

/-- `alert_ingest` on a payload with all required fields present and a
non-empty command list: stores the plan under the fresh id, sends the
card, returns the id. -/
theorem alert_ingest_valid (p : AlertPayload) (newId : String) (s : FixStore)
    (cmds : List String) (hc : p.commands = some cmds) (hne : ¬ cmds = [])
    (ha : truthyOpt p.alertname = true) (hs : truthyOpt p.summary = true)
    (hex : truthyOpt p.explanation = true) :
    alert_ingest p newId s =
      ⟨IngestResult.ok newId, (newId, cmds) :: s,
        some (alert_card_text (p.summary.getD "") (p.explanation.getD "") cmds)⟩ := by
  have ht : truthyCmds (some cmds) = true := by
    cases cmds with
    | nil => exact absurd rfl hne
    | cons a l => rfl
  simp [alert_ingest, ha, hs, hex, ht, hc, hne]

/-! ## Verbatim rendering (claim C9)

"The card contains every command verbatim and in order" is stated as:
the card text is `interleave seps cmds` for some list of separator
strings `seps` of length `cmds.length + 1`, i.e. the text is
`seps[0] ++ cmds[0] ++ seps[1] ++ cmds[1] ++ ... ++ seps[n]`: each
command occurs whole and in the given order. -/

/-- `interleave [s0, ..., sn] [c1, ..., cn] = s0 ++ c1 ++ s1 ++ ... ++ cn ++ sn`. -/
def interleave : List String → List String → String
  | s :: ss, c :: cs => s ++ (c ++ interleave ss cs)
  | s :: _, [] => s
  | [], _ => ""

/-- A prefix of the head separator can be pulled out of `interleave`. -/
theorem interleave_head (p s : String) (ss cs : List String) :
    interleave ((p ++ s) :: ss) cs = p ++ interleave (s :: ss) cs := by
  cases cs with
  | nil => rfl
  | cons c cs' => simp [interleave, strAppendAssoc]

/-- `joinWith` unfolds on a cons when the tail is non-empty. -/
theorem joinWith_cons_of_ne_nil (sep a : String) (l : List String) (h : ¬ l = []) :
    joinWith sep (a :: l) = a ++ (sep ++ joinWith sep l) := by
  cases l with
  | nil => exact absurd rfl h
  | cons b rest => rfl

/-- The numbered command block of `format_commands` (with its closing
fence) interleaves the commands, whole and in order, with separator
strings. -/
theorem numberFrom_block_interleave (i : Nat) (cmds : List String) :
    ∃ s0 ss, ss.length = cmds.length ∧
      joinWith "\n" (numberFrom i cmds ++ ["```"]) = interleave (s0 :: ss) cmds := by
  induction cmds generalizing i with
  | nil => exact ⟨"```", [], rfl, rfl⟩
  | cons c cs ih =>
    obtain ⟨s0, ss, hlen, hj⟩ := ih (i + 1)
    refine ⟨toString i ++ ". ", ("\n" ++ s0) :: ss, by simp [hlen], ?_⟩
    have hne : ¬ (numberFrom (i + 1) cs ++ ["```"]) = [] := by simp
    calc joinWith "\n" (numberFrom i (c :: cs) ++ ["```"])
        = (toString i ++ ". " ++ c) ++
            ("\n" ++ joinWith "\n" (numberFrom (i + 1) cs ++ ["```"])) := by
          simp only [numberFrom, List.cons_append]
          exact joinWith_cons_of_ne_nil "\n" _ _ hne
      _ = (toString i ++ ". " ++ c) ++ ("\n" ++ interleave (s0 :: ss) cs) := by
          rw [hj]
      _ = interleave ((toString i ++ ". ") :: ("\n" ++ s0) :: ss) (c :: cs) := by
          simp only [interleave, interleave_head, strAppendAssoc]

/-! ## The claims -/

/-- C1: consumption of a stored fix is at-most-once.  With `request_id`
stored, the first `run_fix` delivery obtains exactly the stored
commands as the `runCommand` script and removes the entry (the
membership check followed by `FIX_STORE.pop`); after it the id is no
longer in the store, and a second delivery with the same id answers
"Fix expired or not found" with no execution and no state change. -/
theorem c1_consume_at_most_once (s : FixStore) (id : String) (cmds : List String)
    (e1 e2 : ExecCall) (hid : ¬ id = "") (h : FixStore.find s id = some cmds) :
    (teams_action (some "run_fix") (some id) e1 s).script = some cmds ∧
    FixStore.find (teams_action (some "run_fix") (some id) e1 s).store id = none ∧
    teams_action (some "run_fix") (some id) e2
        (teams_action (some "run_fix") (some id) e1 s).store =
      ⟨ActionResult.notFound,
        (teams_action (some "run_fix") (some id) e1 s).store, none⟩ := by
  obtain ⟨hst, hsc⟩ := teams_action_run_fix_found s id cmds e1 hid h
  have hmiss : FixStore.find (teams_action (some "run_fix") (some id) e1 s).store id
      = none := by
    rw [hst]; exact find_pop_self s id
  exact ⟨hsc, hmiss, teams_action_run_fix_missing _ id e2 hmiss⟩

/-- C1 witness: two deliveries of `run_fix` for the stored id `req-1`. -/
theorem c1_consume_at_most_once_witness :
    (teams_action (some "run_fix") (some "req-1") (ExecCall.status 200)
        [("req-1", ["sudo reboot"])]).script = some ["sudo reboot"] ∧
    FixStore.find (teams_action (some "run_fix") (some "req-1") (ExecCall.status 200)
        [("req-1", ["sudo reboot"])]).store "req-1" = none ∧
    teams_action (some "run_fix") (some "req-1") (ExecCall.status 202)
        (teams_action (some "run_fix") (some "req-1") (ExecCall.status 200)
          [("req-1", ["sudo reboot"])]).store =
      ⟨ActionResult.notFound,
        (teams_action (some "run_fix") (some "req-1") (ExecCall.status 200)
          [("req-1", ["sudo reboot"])]).store, none⟩ :=
  c1_consume_at_most_once [("req-1", ["sudo reboot"])] "req-1" ["sudo reboot"]
    (ExecCall.status 200) (ExecCall.status 202) (by decide) (by decide)

/-- C2: round-trip of the command list.  A request created by
`alert_ingest` from a non-empty command list stores exactly that list,
and a later approval (`run_fix`) sends exactly that list, unchanged and
in order, as the `script` of the `runCommand` payload. -/
theorem c2_round_trip (p : AlertPayload) (cmds : List String) (newId : String)
    (s : FixStore) (e : ExecCall) (hc : p.commands = some cmds) (hne : ¬ cmds = [])
    (ha : truthyOpt p.alertname = true) (hsum : truthyOpt p.summary = true)
    (hex : truthyOpt p.explanation = true) (hid : ¬ newId = "") :
    (alert_ingest p newId s).response = IngestResult.ok newId ∧
    FixStore.find (alert_ingest p newId s).store newId = some cmds ∧
    (teams_action (some "run_fix") (some newId) e (alert_ingest p newId s).store).script
      = some cmds := by
  rw [alert_ingest_valid p newId s cmds hc hne ha hsum hex]
  have hfind : FixStore.find ((newId, cmds) :: s) newId = some cmds := by
    simp [FixStore.find]
  exact ⟨rfl, hfind, (teams_action_run_fix_found _ newId cmds e hid hfind).2⟩

/-- C2 witness: `["echo a", "echo b"]` survives creation and approval. -/
theorem c2_round_trip_witness :
    (teams_action (some "run_fix") (some "id1") (ExecCall.status 200)
        (alert_ingest ⟨some "disk-full", "vm1", some "sum", some "exp",
          some ["echo a", "echo b"]⟩ "id1" []).store).script =
      some ["echo a", "echo b"] :=
  (c2_round_trip ⟨some "disk-full", "vm1", some "sum", some "exp",
      some ["echo a", "echo b"]⟩ ["echo a", "echo b"] "id1" [] (ExecCall.status 200)
    rfl (by decide) (by decide) (by decide) (by decide) (by decide)).2.2

/-- C4: a `run_fix` delivery whose `fix_id` is unknown (never created,
already consumed, or evicted) answers the distinct "Fix expired or not
found" 400 page, sends nothing to the VM, and leaves the store
unchanged. -/
theorem c4_unknown_id_no_effect (s : FixStore) (id : String) (e : ExecCall)
    (h : FixStore.find s id = none) :
    teams_action (some "run_fix") (some id) e s =
      ⟨ActionResult.notFound, s, none⟩ :=
  teams_action_run_fix_missing s id e h

/-- C4 witness: an id absent from a non-empty store. -/
theorem c4_unknown_id_no_effect_witness :
    teams_action (some "run_fix") (some "ghost") (ExecCall.status 200)
        [("other", ["sudo x"])] =
      ⟨ActionResult.notFound, [("other", ["sudo x"])], none⟩ :=
  c4_unknown_id_no_effect [("other", ["sudo x"])] "ghost" (ExecCall.status 200)
    (by decide)

/-- C5 counterexample: handling a reject executes nothing, but does NOT
remove the pending entry — with `req-1` stored, after the reject the
entry is still found in the store (the reject branch of `teams_action`
returns before touching `FIX_STORE`, and the reject link does not even
carry a `fix_id`). -/
theorem c5_reject_leaves_entry :
    (teams_action (some "reject") (some "req-1") (ExecCall.status 200)
        [("req-1", ["sudo reboot"])]).script = none ∧
    ¬ FixStore.find (teams_action (some "reject") (some "req-1") (ExecCall.status 200)
        [("req-1", ["sudo reboot"])]).store "req-1" = none := by
  decide

/-- C5 (amended): handling a reject decision triggers no command
execution, but it does not remove the PENDING entry: the store is
returned unchanged, so the entry remains consumable. -/
theorem c5_reject_no_exec_store_unchanged (fixId : Option String) (e : ExecCall)
    (s : FixStore) :
    (teams_action (some "reject") fixId e s).script = none ∧
    (teams_action (some "reject") fixId e s).store = s := by
  constructor <;> simp [teams_action]

/-- C6: `alert_ingest` validates the plan.  A payload whose command list
is null or empty is answered with a 400 and stores nothing; a payload
with all required fields and a non-empty command list stores the plan
as pending under the generated id and returns that id. -/
theorem c6_create_validates (p : AlertPayload) (newId : String) (s : FixStore) :
    ((p.commands = none ∨ p.commands = some []) →
      (alert_ingest p newId s).store = s ∧
      (alert_ingest p newId s).card = none ∧
      ∃ m, (alert_ingest p newId s).response = IngestResult.badRequest m) ∧
    (∀ cmds, p.commands = some cmds → ¬ cmds = [] →
      truthyOpt p.alertname = true → truthyOpt p.summary = true →
      truthyOpt p.explanation = true →
      (alert_ingest p newId s).response = IngestResult.ok newId ∧
      (alert_ingest p newId s).store = (newId, cmds) :: s ∧
      FixStore.find (alert_ingest p newId s).store newId = some cmds) := by
  constructor
  · intro h
    have ht : truthyCmds p.commands = false := by
      rcases h with h | h <;> rw [h] <;> rfl
    simp [alert_ingest, ht]
  · intro cmds hc hne ha hsum hex
    rw [alert_ingest_valid p newId s cmds hc hne ha hsum hex]
    exact ⟨rfl, rfl, by simp [FixStore.find]⟩

/-- C6 witness: an empty command list is rejected with nothing stored;
a singleton command list is stored and the fresh id returned. -/
theorem c6_create_validates_witness :
    (alert_ingest ⟨some "disk", "vm", some "s", some "e", some []⟩ "id1" []).store
        = ([] : FixStore) ∧
    (alert_ingest ⟨some "disk", "vm", some "s", some "e", some ["sudo a"]⟩ "id2"
        []).response = IngestResult.ok "id2" :=
  ⟨((c6_create_validates ⟨some "disk", "vm", some "s", some "e", some []⟩ "id1"
      []).1 (Or.inr rfl)).1,
   ((c6_create_validates ⟨some "disk", "vm", some "s", some "e", some ["sudo a"]⟩
      "id2" []).2 ["sudo a"] rfl (by decide) (by decide) (by decide) (by decide)).1⟩

/-- C3 counterexample: on advisor text with no sudo line the extracted
list is empty, yet `ver4.py`'s `approval_callback` does not fail with
`NoActionableCommands`: it still answers "approved and executed" and
still sends the executed-card whose command section is empty. -/
theorem c3_empty_filter_no_failure :
    extractSudoCommands "Restart the service\nCheck logs" = [] ∧
    (ver4_approval_callback
        ⟨"disk-full", "Restart the service\nCheck logs", none⟩).response =
      "approved and executed" ∧
    (ver4_approval_callback
        ⟨"disk-full", "Restart the service\nCheck logs", none⟩).notifiedText =
      "Commands executed:\n" := by
  decide

/-- C3 (amended): every command in the extracted list satisfies the
allow-list filter (its stripped line starts with "sudo"); but when the
filtered list is empty the workflow does not fail with
`NoActionableCommands`: nothing is executed on the VM, yet the handler
still responds "approved and executed" and still notifies with an
empty command section. -/
theorem c3_filter_allow_list (incident ai : String) (d : Option String) :
    (∀ c, c ∈ extractSudoCommands ai → pyStartsWith "sudo" (pyStrip c) = true) ∧
    (extractSudoCommands ai = [] →
      (ver4_approval_callback ⟨incident, ai, d⟩).executed = [] ∧
      (ver4_approval_callback ⟨incident, ai, d⟩).response = "approved and executed" ∧
      (ver4_approval_callback ⟨incident, ai, d⟩).notifiedText =
        "Commands executed:\n") := by
  constructor
  · intro c hc
    exact (List.mem_filter.mp hc).2
  · intro h
    refine ⟨?_, rfl, ?_⟩ <;> simp [ver4_approval_callback, h, joinWith]

/-- C3 witness: a sudo line passes the filter; advisor text with no
sudo line yields an empty execution. -/
theorem c3_filter_allow_list_witness :
    pyStartsWith "sudo" (pyStrip "  sudo systemctl restart nginx") = true ∧
    (ver4_approval_callback ⟨"disk-full", "no commands here", none⟩).executed = [] :=
  ⟨(c3_filter_allow_list "x" "intro\n  sudo systemctl restart nginx" none).1
      "  sudo systemctl restart nginx" (by decide),
   ((c3_filter_allow_list "disk-full" "no commands here" none).2 (by decide)).1⟩

/-- C7: every terminal transition is notified.  In `ver2.py`, after an
execution attempt the callback always posts exactly one Teams message,
built from the executor outcome — per-command results on success, the
`{"error": ...}` marker when the SSH run failed.  In
`finaleditionjan14.py`, an executed `run_fix` always answers with the
success page or the failure page, never silently. -/
theorem c7_terminal_notified (incident description aiText : String)
    (cmds : List String) (env : SshEnv) (s : FixStore) (id : String) (code : Nat)
    (stored : List String) (h : FixStore.find s id = some stored) (hid : ¬ id = "") :
    (ver2_approval_callback incident description true cmds env aiText).teamsPosts =
      [sopExecMsg incident (run_remote_commands env cmds)] ∧
    (∀ e, env = SshEnv.fail e → run_remote_commands env cmds = [ResultEntry.err e]) ∧
    ((teams_action (some "run_fix") (some id) (ExecCall.status code) s).result =
        ActionResult.execSuccess ∨
      (teams_action (some "run_fix") (some id) (ExecCall.status code) s).result =
        ActionResult.execFailed) := by
  refine ⟨rfl, ?_, teams_action_status_result s id stored code hid h⟩
  intro e he
  rw [he]
  rfl

/-- C7 witness: a failing SSH transport still yields the one report
message, and a non-2xx `runCommand` status yields the failure page. -/
theorem c7_terminal_notified_witness :
    (ver2_approval_callback "disk-full" "desc" true ["sudo x"] (SshEnv.fail "boom")
        "ai").teamsPosts =
      [sopExecMsg "disk-full" (run_remote_commands (SshEnv.fail "boom") ["sudo x"])] ∧
    ((teams_action (some "run_fix") (some "a") (ExecCall.status 500)
        [("a", ["sudo x"])]).result = ActionResult.execSuccess ∨
      (teams_action (some "run_fix") (some "a") (ExecCall.status 500)
        [("a", ["sudo x"])]).result = ActionResult.execFailed) :=
  ⟨(c7_terminal_notified "disk-full" "desc" "ai" ["sudo x"] (SshEnv.fail "boom")
      [("a", ["sudo x"])] "a" 500 ["sudo x"] (by decide) (by decide)).1,
   (c7_terminal_notified "disk-full" "desc" "ai" ["sudo x"] (SshEnv.fail "boom")
      [("a", ["sudo x"])] "a" 500 ["sudo x"] (by decide) (by decide)).2.2⟩

/-- C8 counterexample: delivering the same valid alert payload twice
duplicates the in-flight request — the second delivery draws a fresh
uuid and stores a second entry, so the pending store after the second
delivery differs from (and is larger than) the store after the first. -/
theorem c8_retry_duplicates :
    ¬ (alert_ingest ⟨some "disk-full", "vm1", some "s", some "e", some ["sudo x"]⟩
        "id2"
        (alert_ingest ⟨some "disk-full", "vm1", some "s", some "e", some ["sudo x"]⟩
          "id1" []).store).store =
      (alert_ingest ⟨some "disk-full", "vm1", some "s", some "e", some ["sudo x"]⟩
        "id1" []).store ∧
    List.length (alert_ingest ⟨some "disk-full", "vm1", some "s", some "e",
        some ["sudo x"]⟩ "id2"
        (alert_ingest ⟨some "disk-full", "vm1", some "s", some "e", some ["sudo x"]⟩
          "id1" []).store).store = 2 := by
  decide

/-- C8 (amended): a retried delivery of the same valid payload loses no
in-flight request — the first entry is still stored and consumable —
but it does not deduplicate: a second PENDING entry with the same
commands is stored under the second fresh id. -/
theorem c8_retry_not_lost_but_duplicated (p : AlertPayload) (cmds : List String)
    (id1 id2 : String) (s : FixStore) (hc : p.commands = some cmds)
    (hne : ¬ cmds = []) (ha : truthyOpt p.alertname = true)
    (hsum : truthyOpt p.summary = true) (hex : truthyOpt p.explanation = true)
    (hids : ¬ id2 = id1) :
    FixStore.find (alert_ingest p id2 (alert_ingest p id1 s).store).store id1
      = some cmds ∧
    FixStore.find (alert_ingest p id2 (alert_ingest p id1 s).store).store id2
      = some cmds := by
  rw [alert_ingest_valid p id1 s cmds hc hne ha hsum hex]
  rw [alert_ingest_valid p id2 _ cmds hc hne ha hsum hex]
  constructor
  · simp [FixStore.find, hids]
  · simp [FixStore.find]

/-- C8 witness: two deliveries with distinct fresh ids keep the first
entry and add a second one. -/
theorem c8_retry_not_lost_but_duplicated_witness :
    FixStore.find (alert_ingest ⟨some "disk-full", "vm1", some "s", some "e",
        some ["sudo x"]⟩ "id2"
        (alert_ingest ⟨some "disk-full", "vm1", some "s", some "e", some ["sudo x"]⟩
          "id1" []).store).store "id1" = some ["sudo x"] ∧
    FixStore.find (alert_ingest ⟨some "disk-full", "vm1", some "s", some "e",
        some ["sudo x"]⟩ "id2"
        (alert_ingest ⟨some "disk-full", "vm1", some "s", some "e", some ["sudo x"]⟩
          "id1" []).store).store "id2" = some ["sudo x"] :=
  c8_retry_not_lost_but_duplicated
    ⟨some "disk-full", "vm1", some "s", some "e", some ["sudo x"]⟩ ["sudo x"]
    "id1" "id2" [] rfl (by decide) (by decide) (by decide) (by decide) (by decide)

/-- C9: notification fidelity.  The card text sent by `alert_ingest`
for a stored request is the separators `seps` interleaved with the full
command list: `seps[0] ++ cmds[0] ++ seps[1] ++ ... ++ cmds[n] ++ seps[n]`
— every command appears whole (verbatim, untruncated) and in order. -/
theorem c9_card_contains_all_commands (p : AlertPayload) (newId : String)
    (s : FixStore) (cmds : List String) (hc : p.commands = some cmds)
    (hne : ¬ cmds = []) (ha : truthyOpt p.alertname = true)
    (hsum : truthyOpt p.summary = true) (hex : truthyOpt p.explanation = true) :
    ∃ seps, seps.length = cmds.length + 1 ∧
      (alert_ingest p newId s).card = some (interleave seps cmds) := by
  rw [alert_ingest_valid p newId s cmds hc hne ha hsum hex]
  obtain ⟨s0, ss, hlen, hj⟩ := numberFrom_block_interleave 1 cmds
  refine ⟨("**🤖 AI Summary**\n" ++ p.summary.getD "" ++ "\n\n" ++
      "**Explanation**\n" ++ p.explanation.getD "" ++ "\n\n" ++
      "**Proposed Fix**\n" ++ ("```bash" ++ ("\n" ++ s0))) :: ss,
    by simp [hlen], ?_⟩
  have h1 : format_commands cmds = "```bash" ++ ("\n" ++ interleave (s0 :: ss) cmds) := by
    rw [format_commands, joinWith_cons_of_ne_nil _ _ _ (by simp), hj]
  simp only [alert_card_text, h1, interleave_head, strAppendAssoc,
    Option.some.injEq]

/-- C9 witness: the concrete card for a two-command plan. -/
theorem c9_card_contains_all_commands_witness :
    ∃ seps, seps.length = 2 + 1 ∧
      (alert_ingest ⟨some "disk-full", "vm1", some "sum", some "exp",
          some ["echo a", "echo b"]⟩ "id1" []).card =
        some (interleave seps ["echo a", "echo b"]) :=
  c9_card_contains_all_commands ⟨some "disk-full", "vm1", some "sum", some "exp",
      some ["echo a", "echo b"]⟩ "id1" [] ["echo a", "echo b"]
    rfl (by decide) (by decide) (by decide) (by decide)

/-- C10: in `ver4.py`, every well-formed POST body to
`approval_callback` leads to execution of the sudo-filtered lines of
`ai_solution` — the outcome is the same for every value of a `decision`
field, which the handler never reads — and the approval card built by
`alert_receiver` carries exactly one action, named "Approve Fix", with
no reject action. -/
theorem c10_ver4_unconditional_execution (incident aiSolution description
    base : String) (d1 d2 : Option String) :
    (ver4_approval_callback ⟨incident, aiSolution, d1⟩).executed =
      extractSudoCommands aiSolution ∧
    ver4_approval_callback ⟨incident, aiSolution, d1⟩ =
      ver4_approval_callback ⟨incident, aiSolution, d2⟩ ∧
    (ver4_approval_actions base incident description aiSolution).map
        TeamsCardAction.name = ["Approve Fix"] :=
  ⟨rfl, rfl, rfl⟩

end Spec2Proof
